import Mathlib

/-!
Shallow embedding of the x4a-core repository: the request proxy service
(`src/server.js`), the per-agent query service (`src/agent-server.js`) and
the client SDK (`src/sdk/test.js`).  JavaScript strings become `String`,
absent/undefined values become `Option`, the JS `NaN` arising from a failed
`parseInt` is modelled by `Option.none` propagating through arithmetic, and
each HTTP handler becomes a pure function from its request, configuration
and the outcome of its single outbound call to the response it sends.
-/

namespace X4A

/-- JS whitespace recognised by `parseInt` at the start of its argument
(the common cases: space, tab, newline, carriage return). -/
def isJsSpace (c : Char) : Bool :=
  c = ' ' || c = '\t' || c = '\n' || c = '\r'

/-- Value of a decimal digit character, `none` for a non-digit. -/
def digitVal (c : Char) : Option Nat :=
  if '0' ≤ c && c ≤ '9' then some (c.toNat - '0'.toNat) else none

/-- Fold a list of decimal digit characters into a natural number. -/
def digitsToNat (ds : List Char) : Nat :=
  ds.foldl (fun a c => 10 * a + (c.toNat - '0'.toNat)) 0

/-- The decimal fragment of JavaScript `parseInt(s)` (radix unspecified, no
`0x` prefix): skip leading whitespace, read an optional sign, then the
maximal prefix of decimal digits; the result is `none` when that prefix is
empty — JS returns `NaN` there. -/
def parseIntJS (s : String) : Option Int :=
  let cs := s.toList.dropWhile isJsSpace
  let signAndRest : Int × List Char :=
    match cs with
    | '-' :: r => (-1, r)
    | '+' :: r => (1, r)
    | r => (1, r)
  let ds := signAndRest.2.takeWhile (fun c => (digitVal c).isSome)
  if ds.isEmpty then none
  else some (signAndRest.1 * (digitsToNat ds : Int))

/-- JavaScript `s.slice(-4)`: the last four characters of `s`, or all of
`s` when it is shorter than four characters. -/
def sliceLast4 (s : String) : String :=
  ⟨s.toList.drop (s.toList.length - 4)⟩

/-- `src/agent-server.js` line 83:
`const port = 4021 + parseInt(AGENT_ID.slice(-4)) % 1000;`
JS `%` is the truncating remainder (`Int.tmod`); a `NaN` parse makes the
whole expression `NaN`, modelled as `none`. -/
def agentServerPort (agentId : String) : Option Int :=
  (parseIntJS (sliceLast4 agentId)).map (fun n => 4021 + Int.tmod n 1000)

/-- `src/sdk/test.js` lines 217-219 (`queryAgent`):
`const portOffset = parseInt(agentId.slice(-4)) % 1000;`
`http://localhost:${this.agentPortBase + portOffset}` with
`agentPortBase` defaulting to 4021. -/
def sdkQueryAgentPort (agentPortBase : Int) (agentId : String) : Option Int :=
  (parseIntJS (sliceLast4 agentId)).map (fun n => agentPortBase + Int.tmod n 1000)

/-- The spec's words (§4.2): `basePort + (parseInteger(lastFourCharactersOf(agentId)) mod 1000)`,
where `mod` is the JS remainder the derivation is defined with. -/
def specDeriveAgentPort (agentId : String) (basePort : Int) : Option Int :=
  (parseIntJS (sliceLast4 agentId)).map (fun n => basePort + Int.tmod n 1000)

/-- What `src/agent-server.js` does at startup: it computes the port and
unconditionally passes it to `app.listen` (line 85); there is no branch
producing a configuration error, so `configError` is never reached. -/
inductive StartupAction where
  | listen (port : Option Int)
  | configError
deriving DecidableEq

/-- `src/agent-server.js` lines 83-85: compute the port, then listen. -/
def agentServerStartup (agentId : String) : StartupAction :=
  StartupAction.listen (agentServerPort agentId)

/-- JS truthiness of a possibly-absent string (`!x` in the handlers):
`undefined` and the empty string are falsy. -/
def strTruthy : Option String → Bool
  | none => false
  | some s => !s.isEmpty

/-- Body of a `POST /api/grok` request as `src/server.js` line 25 reads it:
`const { id, type, query } = req.body;` — each field may be absent. -/
structure GrokReq where
  id : Option String
  type : Option String
  query : Option String
deriving DecidableEq

/-- One message inside an upstream completion choice; `content` is `none`
when the field is absent or `null`. -/
structure ChoiceMessage where
  content : Option String
deriving DecidableEq

/-- One element of the upstream completion's `choices` array; `message`
may be absent. -/
structure Choice where
  message : Option ChoiceMessage
deriving DecidableEq

/-- The JSON body of an upstream completion response, as the two handlers
read it: `error?.message` for the error path and `choices` for the success
path; `choices = none` models an absent `choices` field. -/
structure UpstreamBody where
  errorMessage : Option String
  choices : Option (List Choice)
deriving DecidableEq

/-- A resolved `fetch` response: its HTTP status and its body;
`jsonBody = none` models a body that fails to parse as JSON. -/
structure FetchResponse where
  status : Nat
  jsonBody : Option UpstreamBody
deriving DecidableEq

/-- Outcome of the proxy's single outbound `fetch`: it resolves to a
response or rejects with a network error message. -/
inductive FetchOutcome where
  | ok (resp : FetchResponse)
  | networkError (msg : String)
deriving DecidableEq

/-- Body of a response the proxy sends: `res.json({ result })` or
`res.status(s).json({ error })`. -/
inductive RespBody where
  | result (s : String)
  | error (s : String)
deriving DecidableEq

/-- An HTTP response of the proxy: status code and JSON body
(`res.json` with no explicit status sends 200). -/
structure HttpResponse where
  status : Nat
  body : RespBody
deriving DecidableEq

/-- `src/server.js` line 30. -/
def configErrorMsg : String := "X4A Protocol key not configured. Check your .env file."

/-- `src/server.js` line 34. -/
def missingFieldMsg : String := "Missing id or query in request body"

/-- `src/server.js` line 70. -/
def authFailedMsg : String := "Authentication Failed (401/403). Check if XAI_API_KEY is correct and active."

/-- `src/server.js` line 72. -/
def notFoundMsg : String := "API Endpoint Not Found (404). Check the API Status, the endpoint URL, or the specified model name."

/-- `src/server.js` line 67: the default when the upstream body carries no
`error.message`. -/
def simulationFailedMsg : String := "Simulation failed."

/-- `src/server.js` line 79: the fixed fallback placeholder used when the
first choice's content is absent or empty (the literal is itself a piece of
JSON text). -/
def noDataFallback : String := "\x7b\"result\": \"X4A Agent: No data available.\"\x7d"

/-- Exceptions that can be raised inside the proxy handler's `try` block.
The message texts of the two `TypeError`s and of a JSON parse failure are
produced by the JS runtime, not by this repository; they are modelled here
as fixed descriptive strings (no claim depends on their exact text). -/
inductive JsError where
  | typeErrorUndefinedMethod
  | typeErrorUndefinedIndex
  | jsonParseError
deriving DecidableEq

/-- Modelled runtime message of each exception (see `JsError`). -/
def jsErrorMessage : JsError → String
  | JsError.typeErrorUndefinedMethod => "Cannot read properties of undefined (reading toUpperCase)"
  | JsError.typeErrorUndefinedIndex => "Cannot read properties of undefined (reading 0)"
  | JsError.jsonParseError => "Unexpected token in JSON"

/-- `fetch`'s `Response.ok`: status in the range 200-299. -/
def fetchOk (status : Nat) : Bool :=
  200 ≤ status && status < 300

/-- `src/server.js` lines 66-73: `errData.error?.message || 'Simulation failed.'`
then the 401/403 and 404 overrides.  An empty upstream message is falsy in
JS, so it also falls back to the generic message. -/
def classifyUpstreamError (status : Nat) (upstreamMessage : Option String) : String :=
  let base :=
    match upstreamMessage with
    | some m => if m.isEmpty then simulationFailedMsg else m
    | none => simulationFailedMsg
  if status = 401 || status = 403 then authFailedMsg
  else if status = 404 then notFoundMsg
  else base

/-- `src/server.js` line 79:
`data.choices[0]?.message?.content || '...fallback...'`.
An absent `choices` field makes `data.choices[0]` itself throw a
`TypeError` (the optional chaining starts only after the index); an empty
array makes `choices[0]` undefined, which the `?.` chain turns into
`undefined`, and `||` then yields the fallback, as it also does for an
absent/`null`/empty `content`. -/
def grokNormalize (choices : Option (List Choice)) : Except JsError String :=
  match choices with
  | none => Except.error JsError.typeErrorUndefinedIndex
  | some cs =>
    match cs.head? with
    | none => Except.ok noDataFallback
    | some c =>
      match c.message with
      | none => Except.ok noDataFallback
      | some m =>
        match m.content with
        | none => Except.ok noDataFallback
        | some s => Except.ok (if s.isEmpty then noDataFallback else s)

/-- The `POST /api/grok` handler, `src/server.js` lines 24-87, as a pure
function of the configured key, the request body and the outcome its
single outbound `fetch` would have.  The second component records whether
that `fetch` is actually performed.  Order of the source: the key check
(line 28), the `id`/`query` validation (line 33), then the `try` block, in
which the request body's template literal evaluates `type.toUpperCase()`
(line 53) while building the `fetch` arguments — so an absent `type`
throws before any outbound call; every exception of the `try` block lands
in the `catch` (lines 83-86), which sends
`500 { error: "Agent simulation failed: " + message }`. -/
def grokHandler (apiKey : Option String) (req : GrokReq) (fetchResult : FetchOutcome) :
    HttpResponse × Bool :=
  if !(strTruthy apiKey) then
    (⟨500, RespBody.error configErrorMsg⟩, false)
  else if !(strTruthy req.id) || !(strTruthy req.query) then
    (⟨400, RespBody.error missingFieldMsg⟩, false)
  else
    match req.type with
    | none =>
      (⟨500, RespBody.error ("Agent simulation failed: " ++ jsErrorMessage JsError.typeErrorUndefinedMethod)⟩,
        false)
    | some _ =>
      match fetchResult with
      | FetchOutcome.networkError msg =>
        (⟨500, RespBody.error ("Agent simulation failed: " ++ msg)⟩, true)
      | FetchOutcome.ok resp =>
        if !(fetchOk resp.status) then
          let classified :=
            classifyUpstreamError resp.status (resp.jsonBody.bind (fun b => b.errorMessage))
          (⟨500, RespBody.error ("Agent simulation failed: X4A Protocol: " ++ toString resp.status
              ++ " - " ++ classified)⟩, true)
        else
          match resp.jsonBody with
          | none =>
            (⟨500, RespBody.error ("Agent simulation failed: " ++ jsErrorMessage JsError.jsonParseError)⟩,
              true)
          | some body =>
            match grokNormalize body.choices with
            | Except.error e =>
              (⟨500, RespBody.error ("Agent simulation failed: " ++ jsErrorMessage e)⟩, true)
            | Except.ok r => (⟨200, RespBody.result r⟩, true)

/-- Body of a response the per-agent service sends:
`res.json({ agentId, agentName, result })` on success (the echoed `result`
may be `null` when the upstream content is, hence `Option`), or
`res.status(500).json({ error })` on failure. -/
inductive AgentRespBody where
  | success (agentId agentName : String) (result : Option String)
  | error (msg : String)
deriving DecidableEq

/-- An HTTP response of the per-agent service. -/
structure AgentHttpResponse where
  status : Nat
  body : AgentRespBody
deriving DecidableEq

/-- `src/agent-server.js` line 77. -/
def agentExecutionFailedMsg : String := "Agent execution failed due to internal error."

/-- The upstream completion as the agent handler reads it
(`completion.choices[0].message.content`, line 59 — no optional chaining,
so an absent `choices`, an empty array, or an absent `message` each throw
inside the `try` block). -/
structure Completion where
  choices : Option (List Choice)
deriving DecidableEq

/-- The `POST /query` handler of `src/agent-server.js` lines 48-79, as a
pure function of the agent identity and the outcome of its single upstream
completion call (`Except.error` models the call rejecting).  Every
exception of the `try` block — the upstream call failing, or the unguarded
`choices[0].message.content` access throwing — reaches the `catch`
(lines 75-78), which sends the one generic 500 body. -/
def agentQueryHandler (agentId agentName : String) (completion : Except String Completion) :
    AgentHttpResponse :=
  match completion with
  | Except.error _ => ⟨500, AgentRespBody.error agentExecutionFailedMsg⟩
  | Except.ok c =>
    match c.choices with
    | none => ⟨500, AgentRespBody.error agentExecutionFailedMsg⟩
    | some cs =>
      match cs.head? with
      | none => ⟨500, AgentRespBody.error agentExecutionFailedMsg⟩
      | some c0 =>
        match c0.message with
        | none => ⟨500, AgentRespBody.error agentExecutionFailedMsg⟩
        | some m => ⟨200, AgentRespBody.success agentId agentName m.content⟩

/-- Verdict of the external payment gate on a request. -/
inductive GateResult where
  | pass
  | fail
deriving DecidableEq

/-- Trace of one request through the agent service: the response sent,
whether the `/query` route handler ran, and whether the upstream
completion API was called. -/
structure AgentAppTrace where
  response : AgentHttpResponse
  handlerRan : Bool
  upstreamCalled : Bool
deriving DecidableEq

/-- Modelled from the spec: the `paymentMiddleware` of the external
`x402-express` package (not part of this repository) is installed by
`app.use` on `src/agent-server.js` lines 27-45, before the `/query` route
of line 48; per the spec it confirms a micro-payment and, on failure,
rejects the request before the handler runs, with a rejection
status/body owned by the middleware itself (here a parameter). -/
def agentApp (gate : GateResult) (gateRejection : AgentHttpResponse)
    (agentId agentName : String) (completion : Except String Completion) : AgentAppTrace :=
  match gate with
  | GateResult.fail => ⟨gateRejection, false, false⟩
  | GateResult.pass => ⟨agentQueryHandler agentId agentName completion, true, true⟩

/-- `src/sdk/test.js` lines 98-104 (`submitGrokQuery`): the request body is
`JSON.stringify({ id, type })` — it never carries a `query` field. -/
def submitGrokQueryBody (id type : Option String) : GrokReq :=
  ⟨id, type, none⟩

/-- Outcome of the SDK's `_apiRequest` (`src/sdk/test.js` lines 75-80):
the parsed JSON body on a successful status, otherwise a thrown `ApiError`
carrying the status and the response body. -/
inductive SdkResult where
  | parsed (body : RespBody)
  | apiError (status : Nat) (body : RespBody)
deriving DecidableEq

/-- `_apiRequest` applied to a response of the proxy: `res.ok` decides
between returning the JSON and throwing. -/
def sdkApiRequest (resp : HttpResponse) : SdkResult :=
  if fetchOk resp.status then SdkResult.parsed resp.body
  else SdkResult.apiError resp.status resp.body

/-- End-to-end `submitGrokQuery` against a proxy with the given key and
upstream behaviour: the SDK posts `{ id, type }` to `/api/grok` and feeds
the proxy's response through `_apiRequest`. -/
def submitGrokQuery (id type apiKey : Option String) (fetchResult : FetchOutcome) : SdkResult :=
  sdkApiRequest (grokHandler apiKey (submitGrokQueryBody id type) fetchResult).1

/-- The fallback placeholder is not the empty string. -/
theorem noDataFallback_ne_empty : noDataFallback ≠ "" := by decide

/-- An absent string is falsy. -/
theorem strTruthy_none : strTruthy none = false := rfl

/-- Normalization never fails on a present `choices` array: every branch of
the optional chain ends in a string. -/
theorem grokNormalize_some_ok (cs : List Choice) :
    ∃ s : String, grokNormalize (some cs) = Except.ok s := by
  cases cs with
  | nil => exact ⟨noDataFallback, rfl⟩
  | cons c rest =>
    cases h : c.message with
    | none => exact ⟨noDataFallback, by simp [grokNormalize, h]⟩
    | some m =>
      cases hc : m.content with
      | none => exact ⟨noDataFallback, by simp [grokNormalize, h, hc]⟩
      | some s =>
        exact ⟨if s.isEmpty then noDataFallback else s, by simp [grokNormalize, h, hc]⟩

/-- Whatever string normalization returns is non-empty: a falsy (empty)
content falls back to the placeholder. -/
theorem grokNormalize_ok_ne_empty (choices : Option (List Choice)) (s : String)
    (h : grokNormalize choices = Except.ok s) : s ≠ "" := by
  cases choices with
  | none => simp [grokNormalize] at h
  | some cs =>
    cases cs with
    | nil =>
      simp [grokNormalize] at h
      exact h ▸ noDataFallback_ne_empty
    | cons c rest =>
      cases hm : c.message with
      | none =>
        simp [grokNormalize, hm] at h
        exact h ▸ noDataFallback_ne_empty
      | some m =>
        cases hc : m.content with
        | none =>
          simp [grokNormalize, hm, hc] at h
          exact h ▸ noDataFallback_ne_empty
        | some s0 =>
          simp [grokNormalize, hm, hc] at h
          by_cases he : s0.isEmpty
          · rw [if_pos he] at h
            exact h ▸ noDataFallback_ne_empty
          · rw [if_neg he] at h
            subst h
            intro hs
            subst hs
            exact he (by decide)

/-- C1: the agent-port derivation is a pure function of the agent id and
base port, equal to `basePort + (parseInt(last four characters) % 1000)`
with base 4021 by default (`deriveAgentPort("RL-Agent-0007", 4021) = 4028`,
`deriveAgentPort("X-0999", 4021) = 5020`), and the per-agent service's
self-derivation and the SDK's `queryAgent` derivation agree on every
agent id. -/
theorem c1_port_derivation_refinement :
    specDeriveAgentPort "RL-Agent-0007" 4021 = some 4028 ∧
    specDeriveAgentPort "X-0999" 4021 = some 5020 ∧
    (∀ agentId : String, agentServerPort agentId = specDeriveAgentPort agentId 4021) ∧
    (∀ (basePort : Int) (agentId : String),
      sdkQueryAgentPort basePort agentId = specDeriveAgentPort agentId basePort) ∧
    (∀ agentId : String, sdkQueryAgentPort 4021 agentId = agentServerPort agentId) :=
  ⟨by decide, by decide, fun _ => rfl, fun _ _ => rfl, fun _ => rfl⟩

/-- C6: with the upstream key unconfigured, every request gets the exact
500 configuration-error message and the outbound `fetch` never runs. -/
theorem c6_missing_key_config_error (apiKey : Option String) (req : GrokReq)
    (fetchResult : FetchOutcome) (h : strTruthy apiKey = false) :
    grokHandler apiKey req fetchResult = (⟨500, RespBody.error configErrorMsg⟩, false) := by
  simp [grokHandler, h]

/-- Witness for `c6_missing_key_config_error` at a concrete request. -/
theorem c6_missing_key_config_error_witness :
    strTruthy none = false ∧
    grokHandler none ⟨some "RL-Agent-7", some "pricing", some "status"⟩
        (FetchOutcome.ok ⟨200, some ⟨none, some []⟩⟩)
      = (⟨500, RespBody.error configErrorMsg⟩, false) :=
  ⟨rfl, c6_missing_key_config_error none ⟨some "RL-Agent-7", some "pricing", some "status"⟩
    (FetchOutcome.ok ⟨200, some ⟨none, some []⟩⟩) rfl⟩

/-- C8: every exception of the upstream completion call makes the agent
service answer 500 with exactly the one generic body, independent of the
exception's detail. -/
theorem c8_agent_exception_generic_500 (agentId agentName e : String) :
    agentQueryHandler agentId agentName (Except.error e)
      = ⟨500, AgentRespBody.error agentExecutionFailedMsg⟩ := rfl

/-- C9: when the payment gate reports failure, the response is the gate's
own rejection, the `/query` handler never runs, and the upstream
completion API is never called. -/
theorem c9_payment_gate_blocks_handler (gateRejection : AgentHttpResponse)
    (agentId agentName : String) (completion : Except String Completion) :
    agentApp GateResult.fail gateRejection agentId agentName completion
      = ⟨gateRejection, false, false⟩ ∧
    (agentApp GateResult.fail gateRejection agentId agentName completion).handlerRan = false ∧
    (agentApp GateResult.fail gateRejection agentId agentName completion).upstreamCalled = false :=
  ⟨rfl, rfl, rfl⟩

/-- C7 counterexample: on an agent id whose last four characters do not
parse, the service computes no valid port and still reaches `app.listen`;
it has no branch surfacing a startup configuration error. -/
theorem c7_counterexample :
    agentServerStartup "AB-CDEF" = StartupAction.listen none ∧
    agentServerStartup "AB-CDEF" ≠ StartupAction.configError := by decide

/-- C7 amended: a non-numeric trailing slice yields a `NaN` (`none`) port,
which the service passes unvalidated to the external `app.listen` call;
the source itself surfaces no startup configuration error. -/
theorem c7_nan_port_unvalidated_listen (agentId : String)
    (h : parseIntJS (sliceLast4 agentId) = none) :
    agentServerPort agentId = none ∧
    agentServerStartup agentId = StartupAction.listen none := by
  refine ⟨?_, ?_⟩
  · simp [agentServerPort, h]
  · simp [agentServerStartup, agentServerPort, h]

/-- Witness for `c7_nan_port_unvalidated_listen` at a concrete id. -/
theorem c7_nan_port_unvalidated_listen_witness :
    parseIntJS (sliceLast4 "RL-Agent-Main") = none ∧
    (agentServerPort "RL-Agent-Main" = none ∧
      agentServerStartup "RL-Agent-Main" = StartupAction.listen none) :=
  ⟨by decide, c7_nan_port_unvalidated_listen "RL-Agent-Main" (by decide)⟩

/-- C10: `submitGrokQuery` posts a body with no `query` field, so a proxy
with a configured key always answers 400 missing-field, and the SDK's
`_apiRequest` therefore always throws its `ApiError` instead of returning
a result. -/
theorem c10_submit_grok_query_always_errors (id type apiKey : Option String)
    (fetchResult : FetchOutcome) (h : strTruthy apiKey = true) :
    (submitGrokQueryBody id type).query = none ∧
    submitGrokQuery id type apiKey fetchResult
      = SdkResult.apiError 400 (RespBody.error missingFieldMsg) := by
  refine ⟨rfl, ?_⟩
  have h400 : grokHandler apiKey (submitGrokQueryBody id type) fetchResult
      = (⟨400, RespBody.error missingFieldMsg⟩, false) := by
    simp [grokHandler, submitGrokQueryBody, h, strTruthy_none]
  rw [submitGrokQuery, h400]
  decide

/-- C2 counterexample: a request with string `id` and `query` but no
`type`, a configured key, and an upstream that would answer successfully
still gets a 500 error body and no `result` key — `type.toUpperCase()`
throws while the fetch arguments are built, before any outbound call. -/
theorem c2_counterexample :
    grokHandler (some "test-key") ⟨some "RL-Agent-7", none, some "status report"⟩
        (FetchOutcome.ok ⟨200, some ⟨none, some [⟨some ⟨some "PDA ok"⟩⟩]⟩⟩)
      = (⟨500, RespBody.error ("Agent simulation failed: "
          ++ jsErrorMessage JsError.typeErrorUndefinedMethod)⟩, false) := by decide

/-- C2 amended: with `id`, `type` and `query` all present as non-empty
strings, a configured key, and an upstream success whose body parses and
carries a `choices` array, the response is 200 with a string `result`;
with `type` absent, the handler throws before the outbound call and
responds 500 with an error body. -/
theorem c2_result_string_needs_type (apiKey : Option String) (req : GrokReq)
    (resp : FetchResponse) (body : UpstreamBody) (cs : List Choice)
    (hkey : strTruthy apiKey = true) (hid : strTruthy req.id = true)
    (hquery : strTruthy req.query = true) :
    (req.type.isSome = true → fetchOk resp.status = true → resp.jsonBody = some body →
      body.choices = some cs →
      ∃ s : String, (grokHandler apiKey req (FetchOutcome.ok resp)).1 = ⟨200, RespBody.result s⟩) ∧
    (req.type = none →
      (grokHandler apiKey req (FetchOutcome.ok resp)).1
        = ⟨500, RespBody.error ("Agent simulation failed: "
            ++ jsErrorMessage JsError.typeErrorUndefinedMethod)⟩ ∧
      (grokHandler apiKey req (FetchOutcome.ok resp)).2 = false) := by
  constructor
  · intro htype hok hbody hchoices
    obtain ⟨t, ht⟩ := Option.isSome_iff_exists.mp htype
    obtain ⟨s, hs⟩ := grokNormalize_some_ok cs
    refine ⟨s, ?_⟩
    simp [grokHandler, hkey, hid, hquery, ht, hok, hbody, hchoices, hs]
  · intro ht
    refine ⟨?_, ?_⟩ <;> simp [grokHandler, hkey, hid, hquery, ht]

/-- Witness for `c2_result_string_needs_type` at concrete inputs. -/
theorem c2_result_string_needs_type_witness :
    strTruthy (some "test-key") = true ∧
    strTruthy (GrokReq.id ⟨some "RL-Agent-7", some "pricing", some "status"⟩) = true ∧
    strTruthy (GrokReq.query ⟨some "RL-Agent-7", some "pricing", some "status"⟩) = true ∧
    ((GrokReq.type ⟨some "RL-Agent-7", some "pricing", some "status"⟩).isSome = true →
      fetchOk 200 = true →
      FetchResponse.jsonBody ⟨200, some ⟨none, some [⟨some ⟨some "PDA ok"⟩⟩]⟩⟩
        = some ⟨none, some [⟨some ⟨some "PDA ok"⟩⟩]⟩ →
      UpstreamBody.choices ⟨none, some [⟨some ⟨some "PDA ok"⟩⟩]⟩ = some [⟨some ⟨some "PDA ok"⟩⟩] →
      ∃ s : String,
        (grokHandler (some "test-key") ⟨some "RL-Agent-7", some "pricing", some "status"⟩
            (FetchOutcome.ok ⟨200, some ⟨none, some [⟨some ⟨some "PDA ok"⟩⟩]⟩⟩)).1
          = ⟨200, RespBody.result s⟩) ∧
    (GrokReq.type ⟨some "RL-Agent-7", some "pricing", some "status"⟩ = none →
      (grokHandler (some "test-key") ⟨some "RL-Agent-7", some "pricing", some "status"⟩
          (FetchOutcome.ok ⟨200, some ⟨none, some [⟨some ⟨some "PDA ok"⟩⟩]⟩⟩)).1
        = ⟨500, RespBody.error ("Agent simulation failed: "
            ++ jsErrorMessage JsError.typeErrorUndefinedMethod)⟩ ∧
      (grokHandler (some "test-key") ⟨some "RL-Agent-7", some "pricing", some "status"⟩
          (FetchOutcome.ok ⟨200, some ⟨none, some [⟨some ⟨some "PDA ok"⟩⟩]⟩⟩)).2 = false) := by
  refine ⟨rfl, rfl, rfl, ?_⟩
  have h := c2_result_string_needs_type (some "test-key")
    ⟨some "RL-Agent-7", some "pricing", some "status"⟩
    ⟨200, some ⟨none, some [⟨some ⟨some "PDA ok"⟩⟩]⟩⟩
    ⟨none, some [⟨some ⟨some "PDA ok"⟩⟩]⟩ [⟨some ⟨some "PDA ok"⟩⟩] rfl rfl rfl
  exact h

/-- C3 counterexample: an upstream success whose body has no `choices`
field does not yield the fallback placeholder — `data.choices[0]` throws a
`TypeError` (the optional chain starts after the index) and the handler
answers 500 with an error body. -/
theorem c3_counterexample :
    grokHandler (some "test-key") ⟨some "RL-Agent-7", some "pricing", some "status"⟩
        (FetchOutcome.ok ⟨200, some ⟨none, none⟩⟩)
      = (⟨500, RespBody.error ("Agent simulation failed: "
          ++ jsErrorMessage JsError.typeErrorUndefinedIndex)⟩, true) := by decide

/-- C3 amended: an empty `choices` array normalizes to the fixed fallback
placeholder; an absent `choices` field instead raises a `TypeError` that
the handler's catch turns into a 500 error response; and every `result`
the handler ever sends is a non-empty string. -/
theorem c3_empty_choices_fallback (apiKey : Option String) (req : GrokReq) (t : String)
    (resp : FetchResponse) (body : UpstreamBody)
    (hkey : strTruthy apiKey = true) (hid : strTruthy req.id = true)
    (hquery : strTruthy req.query = true) (htype : req.type = some t)
    (hok : fetchOk resp.status = true) (hbody : resp.jsonBody = some body) :
    (body.choices = some [] →
      (grokHandler apiKey req (FetchOutcome.ok resp)).1 = ⟨200, RespBody.result noDataFallback⟩) ∧
    (body.choices = none →
      (grokHandler apiKey req (FetchOutcome.ok resp)).1
        = ⟨500, RespBody.error ("Agent simulation failed: "
            ++ jsErrorMessage JsError.typeErrorUndefinedIndex)⟩) ∧
    (∀ s : String,
      (grokHandler apiKey req (FetchOutcome.ok resp)).1.body = RespBody.result s → s ≠ "") := by
  refine ⟨?_, ?_, ?_⟩
  · intro hchoices
    simp [grokHandler, hkey, hid, hquery, htype, hok, hbody, hchoices, grokNormalize]
  · intro hchoices
    simp [grokHandler, hkey, hid, hquery, htype, hok, hbody, hchoices, grokNormalize]
  · intro s hres
    cases hn : grokNormalize body.choices with
    | error e => simp [grokHandler, hkey, hid, hquery, htype, hok, hbody, hn] at hres
    | ok r =>
      simp [grokHandler, hkey, hid, hquery, htype, hok, hbody, hn] at hres
      exact hres ▸ grokNormalize_ok_ne_empty body.choices r hn

/-- Witness for `c3_empty_choices_fallback` at concrete inputs. -/
theorem c3_empty_choices_fallback_witness :
    strTruthy (some "test-key") = true ∧
    fetchOk 200 = true ∧
    ((UpstreamBody.choices ⟨none, some []⟩ = some [] →
      (grokHandler (some "test-key") ⟨some "RL-Agent-7", some "pricing", some "status"⟩
          (FetchOutcome.ok ⟨200, some ⟨none, some []⟩⟩)).1
        = ⟨200, RespBody.result noDataFallback⟩) ∧
    (UpstreamBody.choices ⟨none, some []⟩ = none →
      (grokHandler (some "test-key") ⟨some "RL-Agent-7", some "pricing", some "status"⟩
          (FetchOutcome.ok ⟨200, some ⟨none, some []⟩⟩)).1
        = ⟨500, RespBody.error ("Agent simulation failed: "
            ++ jsErrorMessage JsError.typeErrorUndefinedIndex)⟩) ∧
    (∀ s : String,
      (grokHandler (some "test-key") ⟨some "RL-Agent-7", some "pricing", some "status"⟩
          (FetchOutcome.ok ⟨200, some ⟨none, some []⟩⟩)).1.body = RespBody.result s → s ≠ "")) := by
  refine ⟨rfl, rfl, ?_⟩
  exact c3_empty_choices_fallback (some "test-key")
    ⟨some "RL-Agent-7", some "pricing", some "status"⟩ "pricing"
    ⟨200, some ⟨none, some []⟩⟩ ⟨none, some []⟩ rfl rfl rfl rfl rfl rfl

/-- C4: every non-success upstream status is surfaced as HTTP 500 whose
error body wraps the classified message; the classification sends 401 and
403 to the fixed authentication-failure message, 404 to the fixed
not-found message, any other status to the upstream's own message when one
is present (and non-empty, JS truthiness), else to the generic failure
message. -/
theorem c4_upstream_error_classification (apiKey : Option String) (req : GrokReq) (t : String)
    (resp : FetchResponse)
    (hkey : strTruthy apiKey = true) (hid : strTruthy req.id = true)
    (hquery : strTruthy req.query = true) (htype : req.type = some t)
    (hbad : fetchOk resp.status = false) :
    (grokHandler apiKey req (FetchOutcome.ok resp)).1
      = ⟨500, RespBody.error ("Agent simulation failed: X4A Protocol: " ++ toString resp.status
          ++ " - " ++ classifyUpstreamError resp.status (resp.jsonBody.bind (fun b => b.errorMessage)))⟩ ∧
    (∀ m : Option String, classifyUpstreamError 401 m = authFailedMsg) ∧
    (∀ m : Option String, classifyUpstreamError 403 m = authFailedMsg) ∧
    (∀ m : Option String, classifyUpstreamError 404 m = notFoundMsg) ∧
    (∀ (s : Nat) (m : String), s ≠ 401 → s ≠ 403 → s ≠ 404 → m ≠ "" →
      classifyUpstreamError s (some m) = m) ∧
    (∀ s : Nat, s ≠ 401 → s ≠ 403 → s ≠ 404 →
      classifyUpstreamError s none = simulationFailedMsg) := by
  refine ⟨?_, ?_, ?_, ?_, ?_, ?_⟩
  · simp [grokHandler, hkey, hid, hquery, htype, hbad]
  · intro m; simp [classifyUpstreamError]
  · intro m; simp [classifyUpstreamError]
  · intro m; simp [classifyUpstreamError]
  · intro s m h1 h2 h3 hm
    have hme : m.isEmpty = false := by
      cases hie : m.isEmpty
      · rfl
      · exact absurd ((String.isEmpty_iff m).mp hie) hm
    simp [classifyUpstreamError, h1, h2, h3, hme]
  · intro s h1 h2 h3
    simp [classifyUpstreamError, h1, h2, h3]

/-- Witness for `c4_upstream_error_classification` at a concrete 503
response carrying its own upstream message. -/
theorem c4_upstream_error_classification_witness :
    strTruthy (some "test-key") = true ∧
    fetchOk 503 = false ∧
    ((grokHandler (some "test-key") ⟨some "RL-Agent-7", some "pricing", some "status"⟩
        (FetchOutcome.ok ⟨503, some ⟨some "Service Unavailable", none⟩⟩)).1
      = ⟨500, RespBody.error ("Agent simulation failed: X4A Protocol: " ++ toString 503
          ++ " - " ++ classifyUpstreamError 503
            ((FetchResponse.jsonBody ⟨503, some ⟨some "Service Unavailable", none⟩⟩).bind
              (fun b => b.errorMessage)))⟩ ∧
    (∀ m : Option String, classifyUpstreamError 401 m = authFailedMsg) ∧
    (∀ m : Option String, classifyUpstreamError 403 m = authFailedMsg) ∧
    (∀ m : Option String, classifyUpstreamError 404 m = notFoundMsg) ∧
    (∀ (s : Nat) (m : String), s ≠ 401 → s ≠ 403 → s ≠ 404 → m ≠ "" →
      classifyUpstreamError s (some m) = m) ∧
    (∀ s : Nat, s ≠ 401 → s ≠ 403 → s ≠ 404 →
      classifyUpstreamError s none = simulationFailedMsg)) := by
  refine ⟨rfl, rfl, ?_⟩
  exact c4_upstream_error_classification (some "test-key")
    ⟨some "RL-Agent-7", some "pricing", some "status"⟩ "pricing"
    ⟨503, some ⟨some "Service Unavailable", none⟩⟩ rfl rfl rfl rfl rfl

/-- C5 counterexample: with the upstream key unconfigured and `id`
missing, the response is the 500 configuration error, not a 400 — the key
check on line 28 runs before the field validation on line 33. -/
theorem c5_counterexample :
    grokHandler none ⟨none, some "pricing", some "status"⟩
        (FetchOutcome.ok ⟨200, some ⟨none, some []⟩⟩)
      = (⟨500, RespBody.error configErrorMsg⟩, false) ∧
    (grokHandler none ⟨none, some "pricing", some "status"⟩
        (FetchOutcome.ok ⟨200, some ⟨none, some []⟩⟩)).1.status ≠ 400 := by decide

/-- C5 amended: provided the upstream key is configured, a request missing
`id` or missing `query` always gets HTTP 400 with the fixed error body and
no outbound call — never a 500; when the key is unconfigured the key check
wins and the response is the 500 configuration error instead. -/
theorem c5_missing_field_400 (apiKey : Option String) (req : GrokReq)
    (fetchResult : FetchOutcome) (hkey : strTruthy apiKey = true)
    (hmiss : strTruthy req.id = false ∨ strTruthy req.query = false) :
    grokHandler apiKey req fetchResult = (⟨400, RespBody.error missingFieldMsg⟩, false) := by
  rcases hmiss with h | h <;> simp [grokHandler, hkey, h]

/-- Witness for `c5_missing_field_400` at a concrete request with no
`id`. -/
theorem c5_missing_field_400_witness :
    strTruthy (some "test-key") = true ∧
    (strTruthy (GrokReq.id ⟨none, some "pricing", some "status"⟩) = false ∨
      strTruthy (GrokReq.query ⟨none, some "pricing", some "status"⟩) = false) ∧
    grokHandler (some "test-key") ⟨none, some "pricing", some "status"⟩
        (FetchOutcome.ok ⟨200, some ⟨none, some []⟩⟩)
      = (⟨400, RespBody.error missingFieldMsg⟩, false) :=
  ⟨rfl, Or.inl rfl, c5_missing_field_400 (some "test-key") ⟨none, some "pricing", some "status"⟩
    (FetchOutcome.ok ⟨200, some ⟨none, some []⟩⟩) rfl (Or.inl rfl)⟩

/-- Witness for `c10_submit_grok_query_always_errors` at concrete inputs. -/
theorem c10_submit_grok_query_always_errors_witness :
    strTruthy (some "test-key") = true ∧
    ((submitGrokQueryBody (some "RL-Agent-7") (some "pricing")).query = none ∧
      submitGrokQuery (some "RL-Agent-7") (some "pricing") (some "test-key")
          (FetchOutcome.ok ⟨200, some ⟨none, some []⟩⟩)
        = SdkResult.apiError 400 (RespBody.error missingFieldMsg)) :=
  ⟨rfl, c10_submit_grok_query_always_errors (some "RL-Agent-7") (some "pricing")
    (some "test-key") (FetchOutcome.ok ⟨200, some ⟨none, some []⟩⟩) rfl⟩

end X4A
